import Mathlib

/-!
Shallow embedding of the dialogue-translation pipeline of `src/app.py`
(class `DialogueTranslator`, the zip bundler `create_download_zip`, and the
batch orchestration in `main`), together with proofs settling the frozen
claims about it.

Python strings are modelled as `List Char`; byte strings as `List Nat`.
`str.split('\n')`, `str.strip()`, `'\n'.join(...)` and the two regular
expressions of the source are translated operationally below, each with a
comment justifying the translation.
-/

/-- The whitespace set of `str.strip()` / regex `\s` restricted to ASCII
(space, tab, newline, carriage return, vertical tab, form feed).  The claims
never involve non-ASCII whitespace. -/
def isPySpace (c : Char) : Bool :=
  c = ' ' || c = '\t' || c = '\n' || c = '\r' || c = '\x0b' || c = '\x0c'

/-- Python `s.strip()`: remove leading and trailing whitespace. -/
def pyStrip (l : List Char) : List Char :=
  ((l.dropWhile isPySpace).reverse.dropWhile isPySpace).reverse

/-- Python `s.split('\n')`: split at every newline, keeping empty pieces;
`"".split('\n') == [""]`. -/
def splitLines : List Char → List (List Char)
  | [] => [[]]
  | c :: rest =>
    match splitLines rest with
    | [] => [[c]]   -- unreachable: splitLines never returns []
    | l0 :: ls => if c = '\n' then [] :: l0 :: ls else (c :: l0) :: ls

/-- Python `'\n'.join(lines)`. -/
def joinNl : List (List Char) → List Char
  | [] => []
  | [l] => l
  | l :: ls => l ++ '\n' :: joinNl ls

/-!
## Tag Stripper — `DialogueTranslator.clean_tags_from_content`

The source is `re.sub(r'\[.*?\]', '', content)`.  Scanning left to right,
the pattern matches at a `[` exactly when some `]` follows it with no
newline in between (`.` does not match `\n`), and non-greedily the match
ends at the nearest such `]`; matched spans are removed and scanning
resumes after them.  `dropToClose` is that bounded lookahead, and
`cleanTagsFuel` the scan; structural recursion on a fuel equal to the
length of the input (each step consumes at least one character per unit of
fuel, so the fuel is never exhausted).
-/

/-- Scan for the nearest `]` before any newline; on success return the
suffix just after it. -/
def dropToClose : List Char → Option (List Char)
  | [] => none
  | c :: rest =>
    if c = ']' then some rest
    else if c = '\n' then none
    else dropToClose rest

def cleanTagsFuel : Nat → List Char → List Char
  | 0, l => l   -- unreachable from cleanTags
  | fuel + 1, [] => []
  | fuel + 1, c :: rest =>
    if c = '[' then
      match dropToClose rest with
      | some rest' => cleanTagsFuel fuel rest'
      | none => '[' :: cleanTagsFuel fuel rest
    else c :: cleanTagsFuel fuel rest

/-- Source `DialogueTranslator.clean_tags_from_content`. -/
def cleanTags (content : List Char) : List Char :=
  cleanTagsFuel content.length content

/-- Holds (as `true`) iff some `]` occurs before the first newline. -/
def hasCloseOnLine : List Char → Bool
  | [] => false
  | c :: rest =>
    if c = ']' then true
    else if c = '\n' then false
    else hasCloseOnLine rest

/-- Holds (as `true`) iff the text contains a substring matched by `\[.*?\]`, i.e.
some `[` followed by a `]` with no newline in between. -/
def hasTag : List Char → Bool
  | [] => false
  | c :: rest => if c = '[' then hasCloseOnLine rest || hasTag rest else hasTag rest

/-!
## Dialogue Counter — `DialogueTranslator.count_dialogues`

The source splits on `'\n'`, strips each line and, when the stripped line
is non-empty and contains a colon, tests `re.match(r'^[^:]+:\s*.+$', line)`.
On a newline-free line that match succeeds exactly when the (greedy,
anchored) run `[^:]+` of non-colons before the first colon is non-empty and
at least one character remains after that colon: `\s*` may backtrack to
empty, `.` matches every character of a line except `\n`, and a line
produced by `split('\n')` contains no `\n`. -/
def dialogueMatch (l : List Char) : Bool :=
  let a := l.takeWhile (fun c => c != ':')
  let r := l.dropWhile (fun c => c != ':')
  !a.isEmpty && !r.isEmpty && !r.tail.isEmpty

/-- Source `DialogueTranslator.count_dialogues`. -/
def count_dialogues (content : List Char) : Nat :=
  (splitLines content).foldl
    (fun count line =>
      let l := pyStrip line
      if !l.isEmpty && l.contains ':' then
        if dialogueMatch l then count + 1 else count
      else count)
    0

/-- Number of lines whose stripped form is non-empty (non-blank lines). -/
def nonBlankLines (content : List Char) : Nat :=
  (splitLines content).countP (fun line => !(pyStrip line).isEmpty)

/-!
## Format Renderers — `generate_markdown`, `generate_txt`

`generate_markdown` splits on `'\n'`, transforms each line and rejoins with
`'\n'`.  Per line the source strips the line; an empty result is emitted as
`""`; otherwise, when the line contains a colon it is matched against
`^([^:]+):\s*(.*)$` — which, on a newline-free line, fails exactly when the
line starts with the colon (group 1 `[^:]+` empty) and otherwise captures
the text before the first colon and the text after it (the greedy `\s*`
only removes leading whitespace from group 2, which the subsequent
`.strip()` removes anyway) — and on success emits
`f"**{speaker}:** {text}"` with both groups stripped; on failure, or when
no colon is present, the stripped line itself is emitted. -/
def mdLine (line : List Char) : List Char :=
  if (pyStrip line).isEmpty then []
  else if (pyStrip line).contains ':' then
    if ((pyStrip line).takeWhile (fun c => c != ':')).isEmpty then pyStrip line
    else
      ("**".data) ++ pyStrip ((pyStrip line).takeWhile (fun c => c != ':'))
        ++ (":** ".data) ++ pyStrip (((pyStrip line).dropWhile (fun c => c != ':')).tail)
  else pyStrip line

/-- Source `DialogueTranslator.generate_markdown`. -/
def generate_markdown (content : List Char) : List Char :=
  joinNl ((splitLines content).map mdLine)

/-- Source `DialogueTranslator.generate_txt`: the identity. -/
def generate_txt (content : List Char) : List Char :=
  content

/-!
## Completion Client — `DialogueTranslator.translate_entire_file`

The network call is the one external effect; its outcome is abstracted as
`HttpResult`: either a transport-level failure (connection error, non-2xx
status raised by `raise_for_status`, timeout — every
`requests.exceptions.RequestException`) carrying the diagnostic `str(e)`,
or a 2xx response whose JSON body is a `JVal`.  On a body the source
evaluates `result['choices'][0]['message']['content'].strip()` inside a
`try` whose `except` clauses catch only `RequestException` and
`(KeyError, IndexError)`; subscripting and `.strip()` on values of the
wrong type raise `TypeError` / `AttributeError`, which no clause catches.
`getField`, `getIndex` and the final `.strip()` step reproduce those
Python semantics on `JVal`. -/
inductive JVal where
  | jnull
  | jbool (b : Bool)
  | jnum (n : Int)
  | jstr (s : List Char)
  | jarr (elems : List JVal)
  | jobj (fields : List (List Char × JVal))

/-- The exception classes the extraction expression can raise, each
carrying the text of Python's `str(e)`. -/
inductive PyExc where
  | keyError (msg : List Char)
  | indexError (msg : List Char)
  | typeError (msg : List Char)
  | attributeError (msg : List Char)
deriving DecidableEq

def pyTypeName : JVal → List Char
  | .jnull => "NoneType".data
  | .jbool _ => "bool".data
  | .jnum _ => "int".data
  | .jstr _ => "str".data
  | .jarr _ => "list".data
  | .jobj _ => "dict".data

/-- Python `v[k]` for a string key `k`. -/
def getField (v : JVal) (k : List Char) : Except PyExc JVal :=
  match v with
  | .jobj fields =>
    match List.lookup k fields with
    | some x => .ok x
    | none => .error (.keyError (['\''] ++ k ++ ['\'']))
  | .jarr _ => .error (.typeError ("list indices must be integers or slices, not str".data))
  | .jstr _ => .error (.typeError ("string indices must be integers".data))
  | other => .error (.typeError (['\''] ++ pyTypeName other ++ ("' object is not subscriptable".data)))

/-- Python `v[i]` for a non-negative integer index `i`. -/
def getIndex (v : JVal) (i : Nat) : Except PyExc JVal :=
  match v with
  | .jarr elems =>
    match elems[i]? with
    | some x => .ok x
    | none => .error (.indexError ("list index out of range".data))
  | .jstr s =>
    match s[i]? with
    | some c => .ok (.jstr [c])
    | none => .error (.indexError ("string index out of range".data))
  | .jobj _ => .error (.keyError ((toString i).data))
  | other => .error (.typeError (['\''] ++ pyTypeName other ++ ("' object is not subscriptable".data)))

/-- Evaluation of `result['choices'][0]['message']['content']`. -/
def getContentPath (body : JVal) : Except PyExc JVal := do
  let c ← getField body ("choices".data)
  let c0 ← getIndex c 0
  let m ← getField c0 ("message".data)
  getField m ("content".data)

/-- Outcome of the `requests.post` call. -/
inductive HttpResult where
  | transportError (diag : List Char)
  | ok (body : JVal)

/-- Fixed constants of the source. -/
def MODEL_NAME : List Char := "google/gemini-2.5-flash".data

def MAX_FILES : Nat := 5

def MAX_TOKENS : Nat := 200000

/-- The fixed instruction block around the cleaned content (the f-string of
`translate_entire_file`, split at the interpolation point). -/
def promptHead : List Char :=
  ("请将以下英文对话文件翻译成地道的中文，要符合中文表达习惯，准确传达原意。\n\n要求：\n1. 保持原文件的格式和结构\n2. 每行对话格式为\"说话者: 内容\"\n3. 先显示英文原文，然后显示中文翻译，每组对话之间空一行\n4. 自动清理已经存在的[tag]标签\n5. 翻译要准确、地道、符合中文表达习惯\n6. 输出格式示例：\n\nSally: Hello there!\nSally: 你好！\n\nPete: How are you?\nPete: 你好吗？\n\n原文件内容：\n".data)

def promptTail : List Char := ("\n\n翻译结果：".data)

/-- Prompt Builder: the prompt sent for a given raw content (tags are
cleaned first, then the content is embedded verbatim in the template). -/
def buildPrompt (content : List Char) : List Char :=
  promptHead ++ cleanTags content ++ promptTail

/-- Source `DialogueTranslator.translate_entire_file`, as a function of the raw
content and the abstracted outcome of its single `requests.post` call.
The request payload (model, one user message containing
`buildPrompt content`, temperature 0.3, `max_tokens = MAX_TOKENS`) only
flows into the network call, so the result depends on the content only
through `response`.  `Except.error` models an exception propagating out of
the method. -/
def translate_entire_file (content : List Char) (response : HttpResult) :
    Except PyExc (List Char) :=
  let _prompt := buildPrompt content
  match response with
  | .transportError diag =>
    .ok (("[API请求失败: ".data) ++ diag ++ ("]".data))
  | .ok body =>
    match getContentPath body with
    | .ok (.jstr s) => .ok (pyStrip s)
    | .ok other =>
      .error (.attributeError (['\''] ++ pyTypeName other ++ ("' object has no attribute 'strip'".data)))
    | .error (.keyError m) => .ok (("[解析响应失败: ".data) ++ m ++ ("]".data))
    | .error (.indexError m) => .ok (("[解析响应失败: ".data) ++ m ++ ("]".data))
    | .error e => .error e

/-- Source `DialogueTranslator.process_content`: counts dialogues on the original
content, translates, renders both formats.  An exception from the
translation propagates (the progress callbacks are UI-only and omitted). -/
def process_content (content : List Char) (response : HttpResult) :
    Except PyExc (List Char × List Char × Nat) :=
  let dialogue_count := count_dialogues content
  match translate_entire_file content response with
  | .error e => .error e
  | .ok translated_content =>
    .ok (generate_markdown translated_content, generate_txt translated_content, dialogue_count)

/-!
## Bundle Builder — `create_download_zip`

The `zipfile` interface is modelled abstractly: `ZipFile.writestr(name,
data)` appends one member to the archive, so the archive is the list of
(member name, member bytes) pairs in write order; extraction returns a
member's bytes unchanged (the compression round-trip is the library's
contract).  The result mapping is a Python dict iterated in insertion
order, modelled as an association list.  `Path(filename).stem` is the last
path component with trailing slashes dropped and, when it has a dot that is
neither its first nor its last character, everything before the last such
dot. -/
structure FileResult where
  markdown : List Char
  txt : List Char
  dialogue_count : Nat
deriving DecidableEq

/-- Python `Path(filename).name`: last component, trailing slashes dropped. -/
def pathName (filename : List Char) : List Char :=
  ((filename.reverse.dropWhile (fun c => c == '/')).takeWhile (fun c => c != '/')).reverse

/-- Python `Path(filename).stem`. -/
def pathStem (filename : List Char) : List Char :=
  let name := pathName filename
  let post := (name.reverse.takeWhile (fun c => c != '.')).reverse
  match name.reverse.dropWhile (fun c => c != '.') with
  | [] => name
  | _ :: preRev => if preRev.isEmpty || post.isEmpty then name else preRev.reverse

/-- Standard UTF-8 encoding of one scalar value. -/
def utf8EncodeChar (c : Char) : List Nat :=
  let n := c.toNat
  if n < 0x80 then [n]
  else if n < 0x800 then [0xC0 + n / 0x40, 0x80 + n % 0x40]
  else if n < 0x10000 then
    [0xE0 + n / 0x1000, 0x80 + (n / 0x40) % 0x40, 0x80 + n % 0x40]
  else
    [0xF0 + n / 0x40000, 0x80 + (n / 0x1000) % 0x40, 0x80 + (n / 0x40) % 0x40, 0x80 + n % 0x40]

/-- Python `s.encode('utf-8')`. -/
def utf8Encode (s : List Char) : List Nat :=
  (s.map utf8EncodeChar).flatten

/-- Python `ZipFile.writestr`: append one member. -/
def zipWritestr (archive : List (List Char × List Nat)) (name : List Char)
    (data : List Nat) : List (List Char × List Nat) :=
  archive ++ [(name, data)]

/-- Source `create_download_zip`: per entry, write `<stem>_translated.md` then
`<stem>_translated.txt`. -/
def create_download_zip (results : List (List Char × FileResult)) :
    List (List Char × List Nat) :=
  results.foldl
    (fun zf entry =>
      zipWritestr
        (zipWritestr zf (pathStem entry.1 ++ ("_translated.md".data))
          (utf8Encode entry.2.markdown))
        (pathStem entry.1 ++ ("_translated.txt".data)) (utf8Encode entry.2.txt))
    []

/-!
## Batch orchestration — the processing loop of `main`

`main` rejects the upload before any processing when more than `MAX_FILES`
files were uploaded; otherwise it processes the files in order inside a
per-file `try`/`except Exception` that skips a failed file and continues.
An uploaded file is its name plus the outcome of decoding its bytes as
UTF-8 (`none` models a `UnicodeDecodeError`, raised before any request is
sent).  The response to each request is given by an oracle from the file's
decoded content; `api_calls` counts `requests.post` attempts. -/
structure UploadedFile where
  name : List Char
  decoded : Option (List Char)

structure BatchState where
  results : List (List Char × FileResult)
  success_count : Nat
  api_calls : Nat
deriving DecidableEq

/-- One iteration of the per-file loop of `main`. -/
def processFile (oracle : List Char → HttpResult) (st : BatchState)
    (f : UploadedFile) : BatchState :=
  match f.decoded with
  | none => st   -- decode raised; caught by the per-file except, file skipped
  | some content =>
    match process_content content (oracle content) with
    | .error _ =>
      -- the request was sent, then an exception propagated out of
      -- process_content and was caught by the per-file except
      { st with api_calls := st.api_calls + 1 }
    | .ok (md_content, txt_content, dialogue_count) =>
      { results := st.results ++ [(f.name, ⟨md_content, txt_content, dialogue_count⟩)]
        success_count := st.success_count + 1
        api_calls := st.api_calls + 1 }

/-- The processing phase of `main`: the upload-count gate, then the loop. -/
def runBatch (oracle : List Char → HttpResult) (files : List UploadedFile) :
    BatchState :=
  if files.length > MAX_FILES then ⟨[], 0, 0⟩
  else files.foldl (processFile oracle) ⟨[], 0, 0⟩

/-- A syntactically well-formed 2xx response whose `content` field is
present but is a number rather than a string (used by the C1
counterexample). -/
def badBody : JVal :=
  .jobj [(("choices".data), .jarr [.jobj [(("message".data),
    .jobj [(("content".data), .jnum 42)])]])]

/-- A well-formed uploaded file (used by the C8 witness). -/
def sampleUpload : UploadedFile :=
  ⟨("a.txt".data), some ("Sally: Hi!".data)⟩

/-!
## Sanity checks of the embedding on concrete inputs
-/

example : cleanTags ("Sally: [warm] Hello!".data) = ("Sally:  Hello!".data) := by decide

example : cleanTags ("a[b[c]d]".data) = ("ad]".data) := by decide

example : hasTag ("x[y]z".data) = true := by decide

example : hasTag ("x[y\n]z".data) = false := by decide

example : count_dialogues ("Sally: Hi!\n\nNot a dialogue line".data) = 1 := by decide

example : generate_markdown ("Sally: Hello!".data) = ("**Sally:** Hello!".data) := by decide

example : generate_markdown ("  hi  ".data) = ("hi".data) := by decide

example : generate_markdown ("Sally:".data) = ("**Sally:** ".data) := by decide

example : generate_markdown ("a\n\nb: c".data) = ("a\n\n**b:** c".data) := by decide

example :
    translate_entire_file ("x".data) (.transportError ("boom".data)) =
      .ok ("[API请求失败: boom]".data) := rfl

example :
    translate_entire_file ("x".data) (.ok (.jobj [])) =
      .ok ("[解析响应失败: 'choices']".data) := rfl

example :
    translate_entire_file ("x".data)
      (.ok (.jobj [(("choices".data), .jarr [.jobj [(("message".data),
        .jobj [(("content".data), .jstr ("  hi  ".data))])]])])) =
      .ok ("hi".data) := rfl

example : pathStem ("a.txt".data) = ("a".data) := by decide

example : pathStem ("archive.tar.gz".data) = ("archive.tar".data) := by decide

example : pathStem (".bashrc".data) = (".bashrc".data) := by decide

example : pathStem ("noext".data) = ("noext".data) := by decide

example : pathStem ("dir/b.md".data) = ("b".data) := by decide

/-!
## Lemmas about the Tag Stripper
-/

theorem dropToClose_none_iff (l : List Char) :
    dropToClose l = none ↔ hasCloseOnLine l = false := by
  induction l with
  | nil => simp [dropToClose, hasCloseOnLine]
  | cons c rest ih =>
    by_cases h1 : c = ']'
    · simp [dropToClose, hasCloseOnLine, h1]
    · by_cases h2 : c = '\n'
      · simp [dropToClose, hasCloseOnLine, h1, h2]
      · simp [dropToClose, hasCloseOnLine, h1, h2, ih]

theorem dropToClose_length {l l' : List Char} (h : dropToClose l = some l') :
    l'.length < l.length := by
  induction l generalizing l' with
  | nil => simp [dropToClose] at h
  | cons c rest ih =>
    by_cases h1 : c = ']'
    · simp [dropToClose, h1] at h
      subst h
      simp
    · by_cases h2 : c = '\n'
      · simp [dropToClose, h1, h2] at h
      · simp only [dropToClose, if_neg h1, if_neg h2] at h
        exact Nat.lt_succ_of_lt (ih h)

/-- The scan never creates a `]` before the first newline: newlines are
never removed, and a removed span lies strictly inside one line. -/
theorem hasCloseOnLine_cleanTagsFuel :
    ∀ (fuel : Nat) (l : List Char), hasCloseOnLine l = false →
      hasCloseOnLine (cleanTagsFuel fuel l) = false := by
  intro fuel
  induction fuel with
  | zero => intro l h; simpa [cleanTagsFuel] using h
  | succ fuel ih =>
    intro l h
    match l with
    | [] => simpa [cleanTagsFuel] using h
    | c :: rest =>
      by_cases h1 : c = ']'
      · rw [h1] at h; simp [hasCloseOnLine] at h
      · by_cases h2 : c = '\n'
        · subst h2
          by_cases hbr : ('\n' : Char) = '['
          · exact absurd hbr (by decide)
          · simp [cleanTagsFuel, hbr, hasCloseOnLine]
        · have hc : hasCloseOnLine rest = false := by
            simpa [hasCloseOnLine, h1, h2] using h
          by_cases hbr : c = '['
          · subst hbr
            have hd : dropToClose rest = none := (dropToClose_none_iff rest).mpr hc
            simp [cleanTagsFuel, hd, hasCloseOnLine, ih rest hc]
          · simp [cleanTagsFuel, hbr, hasCloseOnLine, h1, h2, ih rest hc]

/-- Invariant: the output of the scan contains no match of `\[.*?\]`. -/
theorem hasTag_cleanTagsFuel :
    ∀ (fuel : Nat) (l : List Char), l.length ≤ fuel →
      hasTag (cleanTagsFuel fuel l) = false := by
  intro fuel
  induction fuel with
  | zero =>
    intro l h
    have : l = [] := List.length_eq_zero.mp (Nat.le_zero.mp h)
    subst this
    simp [cleanTagsFuel, hasTag]
  | succ fuel ih =>
    intro l h
    match l with
    | [] => simp [cleanTagsFuel, hasTag]
    | c :: rest =>
      have hr : rest.length ≤ fuel := by simpa using h
      by_cases hbr : c = '['
      · subst hbr
        cases hd : dropToClose rest with
        | some rest' =>
          have hlt : rest'.length < rest.length := dropToClose_length hd
          simp only [cleanTagsFuel, hd, if_pos rfl]
          exact ih rest' (Nat.le_of_lt (Nat.lt_of_lt_of_le hlt hr))
        | none =>
          have hc : hasCloseOnLine rest = false := (dropToClose_none_iff rest).mp hd
          simp [cleanTagsFuel, hd, hasTag, hasCloseOnLine_cleanTagsFuel fuel rest hc,
            ih rest hr]
      · simp [cleanTagsFuel, hbr, hasTag, ih rest hr]

/-- Input with no match of `\[.*?\]` is returned unchanged (at any fuel). -/
theorem cleanTagsFuel_of_hasTag_false :
    ∀ (fuel : Nat) (l : List Char), hasTag l = false → cleanTagsFuel fuel l = l := by
  intro fuel
  induction fuel with
  | zero => intro l _; simp [cleanTagsFuel]
  | succ fuel ih =>
    intro l h
    match l with
    | [] => simp [cleanTagsFuel]
    | c :: rest =>
      by_cases hbr : c = '['
      · subst hbr
        simp only [hasTag, if_true, eq_self_iff_true, Bool.or_eq_false_iff] at h
        have hd : dropToClose rest = none := (dropToClose_none_iff rest).mpr h.1
        simp [cleanTagsFuel, hd, ih rest h.2]
      · have h' : hasTag rest = false := by simpa [hasTag, hbr] using h
        simp [cleanTagsFuel, hbr, ih rest h']

/-- Tag stripping leaves no match of the bracket-tag pattern behind. -/
theorem cleanTags_tag_free (x : List Char) : hasTag (cleanTags x) = false :=
  hasTag_cleanTagsFuel x.length x (Nat.le_refl _)

/-- Tag stripping is the identity on tag-free input. -/
theorem cleanTags_of_tag_free {x : List Char} (h : hasTag x = false) :
    cleanTags x = x :=
  cleanTagsFuel_of_hasTag_false x.length x h

/-- Tag stripping is idempotent. -/
theorem cleanTags_idempotent (x : List Char) :
    cleanTags (cleanTags x) = cleanTags x :=
  cleanTagsFuel_of_hasTag_false _ _ (cleanTags_tag_free x)

/-!
## Lemmas about line splitting, joining and the per-line renderer
-/

theorem splitLines_ne_nil (x : List Char) : splitLines x ≠ [] := by
  cases x with
  | nil => simp [splitLines]
  | cons c rest =>
    simp only [splitLines]
    cases splitLines rest with
    | nil => simp
    | cons l0 ls => by_cases h : c = '\n' <;> simp [h]

theorem splitLines_of_no_nl {l : List Char} (h : '\n' ∉ l) : splitLines l = [l] := by
  induction l with
  | nil => simp [splitLines]
  | cons c rest ih =>
    have hc : c ≠ '\n' := fun hc => h (hc ▸ List.mem_cons_self c rest)
    have hr : '\n' ∉ rest := fun hm => h (List.mem_cons_of_mem c hm)
    simp [splitLines, ih hr, hc]

theorem splitLines_append_nl {l : List Char} (r : List Char) (h : '\n' ∉ l) :
    splitLines (l ++ '\n' :: r) = l :: splitLines r := by
  induction l with
  | nil =>
    simp only [List.nil_append, splitLines]
    cases hs : splitLines r with
    | nil => exact absurd hs (splitLines_ne_nil r)
    | cons l0 ls => simp
  | cons c rest ih =>
    have hc : c ≠ '\n' := fun hc => h (hc ▸ List.mem_cons_self c rest)
    have hr : '\n' ∉ rest := fun hm => h (List.mem_cons_of_mem c hm)
    simp [splitLines, ih hr, hc]

theorem splitLines_joinNl :
    ∀ (ls : List (List Char)), ls ≠ [] → (∀ l ∈ ls, '\n' ∉ l) →
      splitLines (joinNl ls) = ls := by
  intro ls
  induction ls with
  | nil => intro h; exact absurd rfl h
  | cons l ls ih =>
    intro _ hmem
    cases ls with
    | nil =>
      simpa [joinNl] using splitLines_of_no_nl (hmem l (by simp))
    | cons l2 ls2 =>
      have h1 : '\n' ∉ l := hmem l (by simp)
      have : joinNl (l :: l2 :: ls2) = l ++ '\n' :: joinNl (l2 :: ls2) := rfl
      rw [this, splitLines_append_nl _ h1,
        ih (by simp) (fun a ha => hmem a (List.mem_cons_of_mem l ha))]

theorem no_nl_mem_splitLines :
    ∀ (x : List Char) (l : List Char), l ∈ splitLines x → '\n' ∉ l := by
  intro x
  induction x with
  | nil =>
    intro l hl
    simp [splitLines] at hl
    subst hl
    simp
  | cons c rest ih =>
    intro l hl
    simp only [splitLines] at hl
    cases hs : splitLines rest with
    | nil => exact absurd hs (splitLines_ne_nil rest)
    | cons l0 ls =>
      rw [hs] at hl
      by_cases hc : c = '\n'
      · simp only [hc, if_true, eq_self_iff_true, List.mem_cons] at hl
        rcases hl with h | h | h
        · subst h; simp
        · subst h; exact ih l (hs ▸ List.mem_cons_self l ls)
        · exact ih l (hs ▸ List.mem_cons_of_mem l0 h)
      · simp only [if_neg hc, List.mem_cons] at hl
        rcases hl with h | h
        · subst h
          intro hmem
          rcases List.mem_cons.mp hmem with h2 | h2
          · exact hc h2.symm
          · exact ih l0 (hs ▸ List.mem_cons_self l0 ls) h2
        · exact ih l (hs ▸ List.mem_cons_of_mem l0 h)

theorem mem_pyStrip {c : Char} {l : List Char} (h : c ∈ pyStrip l) : c ∈ l := by
  unfold pyStrip at h
  rw [List.mem_reverse] at h
  have h2 : c ∈ (l.dropWhile isPySpace).reverse :=
    (List.dropWhile_sublist isPySpace).subset h
  rw [List.mem_reverse] at h2
  exact (List.dropWhile_sublist isPySpace).subset h2

theorem mdLine_no_nl {line : List Char} (h : '\n' ∉ line) : '\n' ∉ mdLine line := by
  have hs : '\n' ∉ pyStrip line := fun hm => h (mem_pyStrip hm)
  unfold mdLine
  by_cases h1 : (pyStrip line).isEmpty
  · simp [h1]
  · by_cases h2 : (pyStrip line).contains ':'
    · by_cases h3 : ((pyStrip line).takeWhile (fun c => c != ':')).isEmpty
      · simp only [h1, h2, h3]
        simpa using hs
      · simp only [h1, h2, h3, Bool.false_eq_true, if_false, if_true]
        intro hmem
        simp only [List.mem_append] at hmem
        rcases hmem with ((hA | hB) | hC) | hD
        · simp at hA
        · exact hs ((List.takeWhile_sublist _).subset (mem_pyStrip hB))
        · simp at hC
        · exact hs ((List.dropWhile_sublist _).subset
            ((List.tail_sublist _).subset (mem_pyStrip hD)))
    · simp only [h1, h2]
      simpa using hs

theorem generate_markdown_lines (x : List Char) :
    splitLines (generate_markdown x) = (splitLines x).map mdLine := by
  unfold generate_markdown
  apply splitLines_joinNl
  · simpa using splitLines_ne_nil x
  · intro l hl
    rw [List.mem_map] at hl
    obtain ⟨a, ha, rfl⟩ := hl
    exact mdLine_no_nl (no_nl_mem_splitLines x a ha)

theorem mdLine_of_blank {line : List Char} (h : pyStrip line = []) :
    mdLine line = [] := by
  simp [mdLine, h]

theorem takeWhile_eq_nil_of_head_colon {t : List Char} :
    ((':' :: t).takeWhile (fun c => c != ':')) = [] := by
  simp [List.takeWhile_cons]

/-- A stripped, non-blank line on which `^([^:]+):\s*(.*)$` does not match
(no colon at all, or the first character is the colon) is emitted as the
stripped line itself. -/
theorem mdLine_of_no_match {line : List Char} (h1 : pyStrip line ≠ [])
    (h2 : ':' ∉ pyStrip line ∨ (pyStrip line).head? = some ':') :
    mdLine line = pyStrip line := by
  rcases h2 with h2 | h2
  · simp [mdLine, h1, h2]
  · cases hp : pyStrip line with
    | nil => exact absurd hp h1
    | cons c t =>
      rw [hp] at h2
      simp only [List.head?_cons, Option.some.injEq] at h2
      subst h2
      simp only [mdLine, hp]
      simp [takeWhile_eq_nil_of_head_colon]

theorem takeWhile_dropWhile_first_colon {a : List Char} (b : List Char) (h : ':' ∉ a) :
    (a ++ ':' :: b).takeWhile (fun c => c != ':') = a ∧
    (a ++ ':' :: b).dropWhile (fun c => c != ':') = ':' :: b := by
  induction a with
  | nil => simp [List.takeWhile, List.dropWhile]
  | cons c t ih =>
    have hc : c ≠ ':' := fun hc => h (hc ▸ List.mem_cons_self c t)
    have ht : ':' ∉ t := fun hm => h (List.mem_cons_of_mem c hm)
    obtain ⟨ih1, ih2⟩ := ih ht
    simp [List.takeWhile_cons, List.dropWhile_cons, hc, ih1, ih2]

/-- A stripped line of the form `speaker: content` — a non-empty colon-free
speaker before the first colon — is emitted bolded, with the speaker and
the text after the colon both stripped. -/
theorem mdLine_of_match {line a b : List Char} (hsplit : pyStrip line = a ++ ':' :: b)
    (hne : a ≠ []) (hnc : ':' ∉ a) :
    mdLine line = ("**".data) ++ pyStrip a ++ (":** ".data) ++ pyStrip b := by
  obtain ⟨ht, hd⟩ := takeWhile_dropWhile_first_colon b hnc
  unfold mdLine
  rw [hsplit, ht, hd]
  simp [hne]

theorem count_dialogues_le_nonBlank (content : List Char) :
    count_dialogues content ≤ nonBlankLines content := by
  have aux : ∀ (ls : List (List Char)) (n : Nat),
      (ls.foldl (fun count line =>
        let l := pyStrip line
        if !l.isEmpty && l.contains ':' then
          if dialogueMatch l then count + 1 else count
        else count) n)
      ≤ n + ls.countP (fun line => !(pyStrip line).isEmpty) := by
    intro ls
    induction ls with
    | nil => intro n; simp
    | cons l0 ls ih =>
      intro n
      rw [List.foldl_cons, List.countP_cons]
      refine le_trans (ih _) ?_
      by_cases he : (pyStrip l0).isEmpty
      · simp [he]
      · by_cases hm : ':' ∈ pyStrip l0
        · by_cases hd : dialogueMatch (pyStrip l0) <;> simp [he, hm, hd] <;> omega
        · simp [he, hm]
  simpa [count_dialogues, nonBlankLines] using aux (splitLines content) 0

theorem create_download_zip_flatten (results : List (List Char × FileResult)) :
    create_download_zip results =
      (results.map (fun entry =>
        [(pathStem entry.1 ++ ("_translated.md".data), utf8Encode entry.2.markdown),
         (pathStem entry.1 ++ ("_translated.txt".data), utf8Encode entry.2.txt)])).flatten := by
  have aux : ∀ (rs : List (List Char × FileResult)) (acc : List (List Char × List Nat)),
      rs.foldl (fun zf entry =>
        zipWritestr
          (zipWritestr zf (pathStem entry.1 ++ ("_translated.md".data))
            (utf8Encode entry.2.markdown))
          (pathStem entry.1 ++ ("_translated.txt".data)) (utf8Encode entry.2.txt)) acc
      = acc ++ (rs.map (fun entry =>
        [(pathStem entry.1 ++ ("_translated.md".data), utf8Encode entry.2.markdown),
         (pathStem entry.1 ++ ("_translated.txt".data), utf8Encode entry.2.txt)])).flatten := by
    intro rs
    induction rs with
    | nil => intro acc; simp
    | cons e rs ih =>
      intro acc
      rw [List.foldl_cons, ih]
      simp [zipWritestr]
  simpa [create_download_zip] using aux results []

/-!
## The claims
-/

/-- C1 counterexample: the claim says `translate` returns normally for
every response case, with a missing-field response mapped to
`[解析响应失败: …]` and every other case to the trimmed provider text.  On a
2xx response whose `content` field is present but not a string the code
evaluates `42 .strip()`, raising an `AttributeError` that neither `except`
clause catches — the call does not return at all. -/
theorem translate_raises_on_ill_typed_content :
    translate_entire_file ("Sally: Hello!".data) (HttpResult.ok badBody) =
      Except.error (PyExc.attributeError ("'int' object has no attribute 'strip'".data)) := rfl

/-- C1 (amended): for every content string, each response case is tied to
its outcome: a transport failure with diagnostic `d` always returns
`[API请求失败: d]`; a 2xx body on which extracting
`choices[0].message.content` raises `KeyError` or `IndexError` with
message `m` always returns `[解析响应失败: m]`; a 2xx body whose extracted
content is a string always returns it trimmed of surrounding whitespace;
a 2xx body whose content is present but not a string always raises an
uncaught `AttributeError`; and a `TypeError`/`AttributeError` arising from
a wrong-typed field on the extraction path always propagates uncaught. -/
theorem translate_result_cases (content : List Char) :
    (∀ d : List Char, translate_entire_file content (HttpResult.transportError d) =
        Except.ok (("[API请求失败: ".data) ++ d ++ ("]".data))) ∧
    (∀ (body : JVal) (m : List Char),
      (getContentPath body = Except.error (PyExc.keyError m) ∨
        getContentPath body = Except.error (PyExc.indexError m)) →
      translate_entire_file content (HttpResult.ok body) =
        Except.ok (("[解析响应失败: ".data) ++ m ++ ("]".data))) ∧
    (∀ (body : JVal) (raw : List Char),
      getContentPath body = Except.ok (JVal.jstr raw) →
      translate_entire_file content (HttpResult.ok body) = Except.ok (pyStrip raw)) ∧
    (∀ (body v : JVal),
      getContentPath body = Except.ok v → (∀ raw : List Char, v ≠ JVal.jstr raw) →
      translate_entire_file content (HttpResult.ok body) =
        Except.error (PyExc.attributeError
          (['\''] ++ pyTypeName v ++ ("' object has no attribute 'strip'".data)))) ∧
    (∀ (body : JVal) (m : List Char),
      getContentPath body = Except.error (PyExc.typeError m) →
      translate_entire_file content (HttpResult.ok body) =
        Except.error (PyExc.typeError m)) ∧
    (∀ (body : JVal) (m : List Char),
      getContentPath body = Except.error (PyExc.attributeError m) →
      translate_entire_file content (HttpResult.ok body) =
        Except.error (PyExc.attributeError m)) := by
  refine ⟨fun d => rfl, ?_, ?_, ?_, ?_, ?_⟩
  · intro body m hg
    rcases hg with hg | hg <;> simp [translate_entire_file, hg]
  · intro body raw hg
    simp [translate_entire_file, hg]
  · intro body v hg hne
    cases v with
    | jstr raw => exact absurd rfl (hne raw)
    | jnull => simp [translate_entire_file, hg]
    | jbool b => simp [translate_entire_file, hg]
    | jnum n => simp [translate_entire_file, hg]
    | jarr xs => simp [translate_entire_file, hg]
    | jobj fs => simp [translate_entire_file, hg]
  · intro body m hg
    simp [translate_entire_file, hg]
  · intro body m hg
    simp [translate_entire_file, hg]

/-- C1 witness: a 2xx body with no `choices` key raises `KeyError`, which
is caught and returned as `[解析响应失败: 'choices']`. -/
theorem translate_result_cases_witness :
    translate_entire_file ("Sally: Hello!".data) (HttpResult.ok (JVal.jobj [])) =
      Except.ok (("[解析响应失败: ".data) ++ (['\''] ++ ("choices".data) ++ ['\'']) ++ ("]".data)) :=
  (translate_result_cases ("Sally: Hello!".data)).2.1 (JVal.jobj [])
    (['\''] ++ ("choices".data) ++ ['\'']) (Or.inl rfl)

/-- C2 counterexample: the claimed stripped content has a single space
after each colon, but removing exactly `[warm]` / `[joyful]` leaves the
spaces on both sides of the tag, so each colon is followed by two
spaces. -/
theorem clean_tags_scenario_cex :
    cleanTags ("Sally: [warm] Hello!\nPete: [joyful] Hi!".data) ≠
      ("Sally: Hello!\nPete: Hi!".data) := by decide

/-- C2 (amended): stripping the scenario input removes exactly the
bracketed tags and nothing else, yielding `"Sally:  Hello!\nPete:  Hi!"`
(two spaces after each colon, since the spaces surrounding each removed
tag both remain). -/
theorem clean_tags_scenario :
    cleanTags ("Sally: [warm] Hello!\nPete: [joyful] Hi!".data) =
      ("Sally:  Hello!\nPete:  Hi!".data) := by decide

/-- C3 counterexample: the claim says a non-blank line not matching the
speaker-colon pattern passes through verbatim, but the renderer strips
surrounding whitespace from it: `" hello"` renders as `"hello"`. -/
theorem markdown_verbatim_cex :
    generate_markdown ((" hello").data) ≠ ((" hello").data) := by decide

/-- C3 (amended): the markdown renderer emits one output line per input
line; a line whose stripped form is empty is emitted as an empty line; a
non-blank line not matching the speaker-colon pattern (no colon, or the
stripped line starts with the colon) is emitted as the line *stripped of
surrounding whitespace*, not verbatim; a line matching `speaker: content`
(non-empty colon-free speaker before the first colon) is emitted as the
speaker, stripped, in strong emphasis, followed by a colon and the
stripped content; and `"Sally: Hello!"` renders as `"**Sally:** Hello!"`. -/
theorem markdown_line_behavior (x : List Char) :
    (splitLines (generate_markdown x)).length = (splitLines x).length ∧
    (∀ (i : Nat) (l : List Char), (splitLines x)[i]? = some l → pyStrip l = [] →
      (splitLines (generate_markdown x))[i]? = some []) ∧
    (∀ (i : Nat) (l : List Char), (splitLines x)[i]? = some l → pyStrip l ≠ [] →
      (':' ∉ pyStrip l ∨ (pyStrip l).head? = some ':') →
      (splitLines (generate_markdown x))[i]? = some (pyStrip l)) ∧
    (∀ (i : Nat) (l a b : List Char), (splitLines x)[i]? = some l →
      pyStrip l = a ++ ':' :: b → a ≠ [] → ':' ∉ a →
      (splitLines (generate_markdown x))[i]? =
        some (("**".data) ++ pyStrip a ++ (":** ".data) ++ pyStrip b)) ∧
    generate_markdown ("Sally: Hello!".data) = ("**Sally:** Hello!".data) := by
  refine ⟨?_, ?_, ?_, ?_, by decide⟩
  · rw [generate_markdown_lines, List.length_map]
  · intro i l hi hb
    rw [generate_markdown_lines, List.getElem?_map, hi]
    simp [mdLine_of_blank hb]
  · intro i l hi hnb hnm
    rw [generate_markdown_lines, List.getElem?_map, hi]
    simp [mdLine_of_no_match hnb hnm]
  · intro i l a b hi hsplit hne hnc
    rw [generate_markdown_lines, List.getElem?_map, hi]
    simp [mdLine_of_match hsplit hne hnc]

/-- C3 witness: in the sample input, line 3 is non-blank with no colon and
is emitted stripped, and line 1 matches `speaker: content` and is emitted
bolded with both parts stripped. -/
theorem markdown_line_behavior_witness :
    (splitLines (generate_markdown ("a\n x: y\n: z\n plain".data)))[3]? =
      some (pyStrip ((" plain").data)) ∧
    (splitLines (generate_markdown ("a\n x: y\n: z\n plain".data)))[1]? =
      some (("**".data) ++ pyStrip ("x".data) ++ (":** ".data) ++ pyStrip ((" y").data)) :=
  ⟨(markdown_line_behavior ("a\n x: y\n: z\n plain".data)).2.2.1 3 ((" plain").data)
    (by decide) (by decide) (Or.inl (by decide)),
   (markdown_line_behavior ("a\n x: y\n: z\n plain".data)).2.2.2.1 1 ((" x: y").data)
     ("x".data) ((" y").data) (by decide) (by decide) (by decide) (by decide)⟩

/-- C4: the produced archive is exactly, per entry of the result mapping
in insertion order, the member `<stem>_translated.md` holding the UTF-8
bytes of the markdown rendering followed by the member
`<stem>_translated.txt` holding the UTF-8 bytes of the plaintext
rendering; it has `2·n` members for `n` entries, and the empty mapping
yields the empty archive. -/
theorem zip_members (results : List (List Char × FileResult)) :
    create_download_zip results =
      (results.map (fun entry =>
        [(pathStem entry.1 ++ ("_translated.md".data), utf8Encode entry.2.markdown),
         (pathStem entry.1 ++ ("_translated.txt".data), utf8Encode entry.2.txt)])).flatten ∧
    (create_download_zip results).length = 2 * results.length ∧
    create_download_zip ([] : List (List Char × FileResult)) = [] := by
  refine ⟨create_download_zip_flatten results, ?_, rfl⟩
  rw [create_download_zip_flatten results]
  induction results with
  | nil => simp
  | cons e rs ih => simp [ih]; ring

/-- C5: tag stripping is idempotent, is the identity on input containing
no bracketed annotation, and leaves no substring matching the bracket-tag
pattern in its output. -/
theorem strip_idempotent (x : List Char) :
    cleanTags (cleanTags x) = cleanTags x ∧
    (hasTag x = false → cleanTags x = x) ∧
    hasTag (cleanTags x) = false :=
  ⟨cleanTags_idempotent x, fun h => cleanTags_of_tag_free h, cleanTags_tag_free x⟩

/-- C5 witness: a tag-free input is returned unchanged. -/
theorem strip_idempotent_witness :
    hasTag ("Sally: Hello!".data) = false ∧
    cleanTags ("Sally: Hello!".data) = ("Sally: Hello!".data) :=
  ⟨by decide, (strip_idempotent ("Sally: Hello!".data)).2.1 (by decide)⟩

/-- C6: the markdown rendering has exactly as many lines as its input, and
every line of the input that is blank (strips to empty — in particular
every empty line) is an empty line at the same position of the output. -/
theorem markdown_preserves_lines (x : List Char) :
    (splitLines (generate_markdown x)).length = (splitLines x).length ∧
    (∀ (i : Nat) (l : List Char), (splitLines x)[i]? = some l → pyStrip l = [] →
      (splitLines (generate_markdown x))[i]? = some []) := by
  constructor
  · rw [generate_markdown_lines, List.length_map]
  · intro i l hi hb
    rw [generate_markdown_lines, List.getElem?_map, hi]
    simp [mdLine_of_blank hb]

/-- C6 witness: the blank middle line of `"a: b\n\nc"` stays blank at
position 1. -/
theorem markdown_preserves_lines_witness :
    (splitLines (generate_markdown ("a: b\n\nc".data)))[1]? = some [] :=
  (markdown_preserves_lines ("a: b\n\nc".data)).2 1 [] (by decide) (by decide)

/-- C7: for every content the dialogue count is a non-negative integer
bounded by the number of non-blank lines, and the scenario
`"Sally: Hi!\n\nNot a dialogue line"` counts exactly one dialogue line. -/
theorem count_dialogues_bounds :
    (∀ content : List Char, 0 ≤ count_dialogues content ∧
      count_dialogues content ≤ nonBlankLines content) ∧
    count_dialogues ("Sally: Hi!\n\nNot a dialogue line".data) = 1 :=
  ⟨fun content => ⟨Nat.zero_le _, count_dialogues_le_nonBlank content⟩, by decide⟩

/-- C8: uploading more files than `MAX_FILES` is rejected before the loop
runs: the batch ends with no results, zero processed files and zero API
requests. -/
theorem batch_limit_rejects (oracle : List Char → HttpResult)
    (files : List UploadedFile) (h : files.length > MAX_FILES) :
    runBatch oracle files = ⟨[], 0, 0⟩ := by
  simp [runBatch, h]

/-- C8 witness: six uploaded files exceed the limit of five. -/
theorem batch_limit_rejects_witness :
    runBatch (fun _ => HttpResult.transportError []) (List.replicate 6 sampleUpload) =
      ⟨[], 0, 0⟩ :=
  batch_limit_rejects _ (List.replicate 6 sampleUpload) (by decide)

/-- C9: whenever `process_content` returns, the dialogue count it returns
is `count_dialogues` of the original content, whatever the completion
client returned. -/
theorem count_from_original (content : List Char) (response : HttpResult)
    (md txt : List Char) (n : Nat)
    (h : process_content content response = Except.ok (md, txt, n)) :
    n = count_dialogues content := by
  unfold process_content at h
  cases ht : translate_entire_file content response with
  | error e => rw [ht] at h; simp at h
  | ok t =>
    rw [ht] at h
    simp only [Except.ok.injEq, Prod.mk.injEq] at h
    exact h.2.2.symm

/-- C9 witness: on a transport failure the returned count is still that of
the original content. -/
theorem count_from_original_witness : (1 : Nat) = count_dialogues ("A: b".data) :=
  count_from_original ("A: b".data) (HttpResult.transportError [])
    (generate_markdown (("[API请求失败: ".data) ++ [] ++ ("]".data)))
    (generate_txt (("[API请求失败: ".data) ++ [] ++ ("]".data))) 1 rfl

/-- C10: a newline-free line that strips to `speaker:` (non-empty speaker,
nothing after the colon) is still bolded by the markdown renderer — it
renders as `**speaker:** ` with a trailing space — while `count_dialogues`
does not count it, since its pattern demands non-empty content after the
colon. -/
theorem bold_speaker_empty_content {l a : List Char}
    (hnl : '\n' ∉ l) (hsplit : pyStrip l = a ++ [':'])
    (hne : a ≠ []) (hnc : ':' ∉ a) :
    generate_markdown l = ("**".data) ++ pyStrip a ++ (":** ".data) ∧
    count_dialogues l = 0 := by
  obtain ⟨ht, hd⟩ := takeWhile_dropWhile_first_colon [] hnc
  have hl : splitLines l = [l] := splitLines_of_no_nl hnl
  constructor
  · have hgen : generate_markdown l = mdLine l := by
      unfold generate_markdown
      rw [hl]
      rfl
    rw [hgen]
    unfold mdLine
    rw [hsplit, ht, hd]
    simp [hne, pyStrip]
  · unfold count_dialogues
    rw [hl]
    simp only [List.foldl_cons, List.foldl_nil, hsplit, ht, hd, dialogueMatch]
    simp [hne]

/-- C10 witness: `"Sally:"` renders bolded with trailing space and counts
zero dialogues. -/
theorem bold_speaker_empty_content_witness :
    generate_markdown ("Sally:".data) =
      ("**".data) ++ pyStrip ("Sally".data) ++ (":** ".data) ∧
    count_dialogues ("Sally:".data) = 0 :=
  bold_speaker_empty_content (l := ("Sally:".data)) (a := ("Sally".data))
    (by decide) (by decide) (by decide) (by decide)
